import Mathlib

/-!
# guards.hpp : value-owning lock boxes and their scoped guards

A shallow embedding of `src/guards.hpp`.

* `guards.detail` : the two standard-library locks the header builds on.
* `guards.impl`   : the three guard classes (constructor acquires, destructor releases).
* `guards.mutex`, `guards.shared_mutex` : the two boxes and their guard-producing accessors.
* `guards.ExclState`, `guards.SharedState` : interleaving semantics of several threads
  using one box.

A guard of the header stores two references, `m_ref` into the box value and `m_mutex_ref`
into the box lock.  While a guard is alive every access to the box goes through it, so the
embedding lets the guard carry the current contents of both referenced fields; ending the
guard lifetime writes them back into the box (`mutex.release` and friends).
A blocking call is a function into `Option` that answers `none` when the caller would wait.
-/

namespace guards

/-! ## Locks -/

namespace detail

/-- Modelled from the spec: the exclusive lock `std::mutex` named by `detail::mutex_t`
(line 23); it is standard-library code, absent from the header.  The glossary describes it
as a lock with at most one holder across all threads at any time. -/
structure mutex_t where
  locked : Bool
deriving DecidableEq, Repr

/-- Default construction `m_mutex()` : a free lock. -/
def mutex_t.init : mutex_t := ⟨false⟩

/-- Blocking `lock()` : succeeds only on a free lock, otherwise the caller waits. -/
def mutex_t.lock (m : mutex_t) : Option mutex_t :=
  if m.locked then none else some ⟨true⟩

/-- Releasing `unlock()` . -/
def mutex_t.unlock (_m : mutex_t) : mutex_t := ⟨false⟩

/-- Modelled from the spec: the reader/writer lock `std::shared_mutex` named by
`detail::shared_mutex_t` (line 24); standard-library code, absent from the header.  Many
shared holders may coexist; at most one exclusive holder, to the exclusion of all shared
holders. -/
structure shared_mutex_t where
  writer : Bool
  readers : Nat
deriving DecidableEq, Repr

/-- Default construction `m_mutex()` : no writer, no reader. -/
def shared_mutex_t.init : shared_mutex_t := ⟨false, 0⟩

/-- Blocking `lock()` : succeeds only when neither a writer nor a reader holds the lock. -/
def shared_mutex_t.lock (m : shared_mutex_t) : Option shared_mutex_t :=
  if m.writer || m.readers != 0 then none else some ⟨true, m.readers⟩

/-- Releasing `unlock()` of the exclusive hold. -/
def shared_mutex_t.unlock (m : shared_mutex_t) : shared_mutex_t := ⟨false, m.readers⟩

/-- Blocking `lock_shared()` : succeeds only when no writer holds the lock. -/
def shared_mutex_t.lock_shared (m : shared_mutex_t) : Option shared_mutex_t :=
  if m.writer then none else some ⟨m.writer, m.readers + 1⟩

/-- Releasing `unlock_shared()` : gives back one shared slot. -/
def shared_mutex_t.unlock_shared (m : shared_mutex_t) : shared_mutex_t :=
  ⟨m.writer, m.readers - 1⟩

end detail

/-! ## Guards -/

/-- The three ways a guard exposes the value: `get()`, `operator*`, `operator->`. -/
inductive Accessor where
  | get
  | deref
  | arrow
deriving DecidableEq, Repr

namespace impl

/-- Class `mutex_lock_guard` (lines 28-50): `T &m_ref` and `detail::mutex_t &m_mutex_ref`. -/
structure mutex_lock_guard (T : Type) where
  m_ref : T
  m_mutex_ref : detail.mutex_t
deriving DecidableEq, Repr

/-- Constructor (lines 32-35): binds both references, then `m_mutex_ref.lock()`. -/
def mutex_lock_guard.ctor {T : Type} (ref : T) (mutex_ref : detail.mutex_t) :
    Option (mutex_lock_guard T) :=
  match mutex_ref.lock with
  | none => none
  | some m => some ⟨ref, m⟩

/-- Destructor (line 37): `m_mutex_ref.unlock()`; the result is the lock left behind. -/
def mutex_lock_guard.dtor {T : Type} (g : mutex_lock_guard T) : detail.mutex_t :=
  g.m_mutex_ref.unlock

/-- Line 41: `auto &get() noexcept { return m_ref; }` . -/
def mutex_lock_guard.get {T : Type} (g : mutex_lock_guard T) : T := g.m_ref

/-- Line 43: `auto *operator->() noexcept { return &m_ref; }`, read through the pointer. -/
def mutex_lock_guard.arrow {T : Type} (g : mutex_lock_guard T) : T := g.m_ref

/-- Line 45: `auto &operator*() noexcept { return m_ref; }` . -/
def mutex_lock_guard.deref {T : Type} (g : mutex_lock_guard T) : T := g.m_ref

/-- Reading through the chosen accessor. -/
def mutex_lock_guard.load {T : Type} (a : Accessor) (g : mutex_lock_guard T) : T :=
  match a with
  | .get => g.get
  | .deref => g.deref
  | .arrow => g.arrow

/-- Assigning `w` through the mutable reference (or pointer) the chosen accessor returns. -/
def mutex_lock_guard.store {T : Type} (a : Accessor) (g : mutex_lock_guard T) (w : T) :
    mutex_lock_guard T :=
  match a with
  | .get => ⟨w, g.m_mutex_ref⟩
  | .deref => ⟨w, g.m_mutex_ref⟩
  | .arrow => ⟨w, g.m_mutex_ref⟩

/-- Class `shared_mutex_read_guard` (lines 52-75): `const T &m_ref` and the lock reference. -/
structure shared_mutex_read_guard (T : Type) where
  m_ref : T
  m_mutex_ref : detail.shared_mutex_t
deriving DecidableEq, Repr

/-- Constructor (lines 56-60): binds both references, then `m_mutex_ref.lock_shared()`. -/
def shared_mutex_read_guard.ctor {T : Type} (ref : T) (mutex_ref : detail.shared_mutex_t) :
    Option (shared_mutex_read_guard T) :=
  match mutex_ref.lock_shared with
  | none => none
  | some m => some ⟨ref, m⟩

/-- Destructor (line 62): `m_mutex_ref.unlock_shared()`. -/
def shared_mutex_read_guard.dtor {T : Type} (g : shared_mutex_read_guard T) :
    detail.shared_mutex_t :=
  g.m_mutex_ref.unlock_shared

/-- Line 66: `const auto &get() const noexcept { return m_ref; }` . -/
def shared_mutex_read_guard.get {T : Type} (g : shared_mutex_read_guard T) : T := g.m_ref

/-- Line 68: `const auto *operator->() const noexcept { return &m_ref; }` . -/
def shared_mutex_read_guard.arrow {T : Type} (g : shared_mutex_read_guard T) : T := g.m_ref

/-- Line 70: `const auto &operator*() const noexcept { return m_ref; }` . -/
def shared_mutex_read_guard.deref {T : Type} (g : shared_mutex_read_guard T) : T := g.m_ref

/-- Reading through the chosen accessor.  The read guard has no `store`: all three
accessors return `const` access. -/
def shared_mutex_read_guard.load {T : Type} (a : Accessor) (g : shared_mutex_read_guard T) :
    T :=
  match a with
  | .get => g.get
  | .deref => g.deref
  | .arrow => g.arrow

/-- Class `shared_mutex_write_guard` (lines 77-99). -/
structure shared_mutex_write_guard (T : Type) where
  m_ref : T
  m_mutex_ref : detail.shared_mutex_t
deriving DecidableEq, Repr

/-- Constructor (lines 81-84): binds both references, then `m_mutex_ref.lock()`. -/
def shared_mutex_write_guard.ctor {T : Type} (ref : T) (mutex_ref : detail.shared_mutex_t) :
    Option (shared_mutex_write_guard T) :=
  match mutex_ref.lock with
  | none => none
  | some m => some ⟨ref, m⟩

/-- Destructor (line 86): `m_mutex_ref.unlock()`. -/
def shared_mutex_write_guard.dtor {T : Type} (g : shared_mutex_write_guard T) :
    detail.shared_mutex_t :=
  g.m_mutex_ref.unlock

/-- Line 90: `auto &get() noexcept { return m_ref; }` . -/
def shared_mutex_write_guard.get {T : Type} (g : shared_mutex_write_guard T) : T := g.m_ref

/-- Line 92: `auto *operator->() noexcept { return &m_ref; }` . -/
def shared_mutex_write_guard.arrow {T : Type} (g : shared_mutex_write_guard T) : T := g.m_ref

/-- Line 94: `auto &operator*() noexcept { return m_ref; }` . -/
def shared_mutex_write_guard.deref {T : Type} (g : shared_mutex_write_guard T) : T := g.m_ref

/-- Reading through the chosen accessor. -/
def shared_mutex_write_guard.load {T : Type} (a : Accessor) (g : shared_mutex_write_guard T) :
    T :=
  match a with
  | .get => g.get
  | .deref => g.deref
  | .arrow => g.arrow

/-- Assigning `w` through the mutable reference (or pointer) the chosen accessor returns. -/
def shared_mutex_write_guard.store {T : Type} (a : Accessor) (g : shared_mutex_write_guard T)
    (w : T) : shared_mutex_write_guard T :=
  match a with
  | .get => ⟨w, g.m_mutex_ref⟩
  | .deref => ⟨w, g.m_mutex_ref⟩
  | .arrow => ⟨w, g.m_mutex_ref⟩

end impl

/-! ## Boxes -/

/-- Class `mutex` (lines 102-161): `T m_value; detail::mutex_t m_mutex;` . -/
structure mutex (T : Type) where
  m_value : T
  m_mutex : detail.mutex_t
deriving DecidableEq, Repr

/-- Line 156: `auto lock() { return impl::mutex_lock_guard(m_value, m_mutex); }` . -/
def mutex.lock {T : Type} (b : mutex T) : Option (impl.mutex_lock_guard T) :=
  impl.mutex_lock_guard.ctor b.m_value b.m_mutex

/-- The box once the guard goes out of scope: the value as left through `m_ref`, the lock as
left by the destructor. -/
def mutex.release {T : Type} (g : impl.mutex_lock_guard T) : mutex T :=
  ⟨g.m_ref, g.dtor⟩

/-- Class `shared_mutex` (lines 163-225): `T m_value; mutable detail::shared_mutex_t m_mutex;` -/
structure shared_mutex (T : Type) where
  m_value : T
  m_mutex : detail.shared_mutex_t
deriving DecidableEq, Repr

/-- Line 218: `auto read() const { return impl::shared_mutex_read_guard(m_value, m_mutex); }` -/
def shared_mutex.read {T : Type} (b : shared_mutex T) : Option (impl.shared_mutex_read_guard T) :=
  impl.shared_mutex_read_guard.ctor b.m_value b.m_mutex

/-- Line 220: `auto write() { return impl::shared_mutex_write_guard(m_value, m_mutex); }` . -/
def shared_mutex.write {T : Type} (b : shared_mutex T) :
    Option (impl.shared_mutex_write_guard T) :=
  impl.shared_mutex_write_guard.ctor b.m_value b.m_mutex

/-- The box once a read guard goes out of scope. -/
def shared_mutex.release_read {T : Type} (g : impl.shared_mutex_read_guard T) : shared_mutex T :=
  ⟨g.m_ref, g.dtor⟩

/-- The box once a write guard goes out of scope. -/
def shared_mutex.release_write {T : Type} (g : impl.shared_mutex_write_guard T) :
    shared_mutex T :=
  ⟨g.m_ref, g.dtor⟩

/-! ## Scoped use of a guard

A critical section receives the value the guard exposes and leaves a (possibly changed)
value behind together with its outcome: `Except.ok` for normal completion, `Except.error`
for a failure that propagates through the scope of the guard.  A failing section may have
changed the value before failing.  In both cases the guard is destroyed when control
leaves the scope, which is where the destructor runs.
-/

/-- Scope `{ auto g = box.lock(); body(g); }` on an exclusive box. -/
def mutex.with_lock {T E R : Type} (b : mutex T) (body : T → T × Except E R) :
    Option (mutex T × Except E R) :=
  match b.lock with
  | none => none
  | some g =>
    match body g.get with
    | (v, .ok r) => some (mutex.release (g.store .get v), .ok r)
    | (v, .error e) => some (mutex.release (g.store .get v), .error e)

/-- Scope `{ auto g = box.read(); body(g); }` on a shared box; the section only reads. -/
def shared_mutex.with_read {T E R : Type} (b : shared_mutex T) (body : T → Except E R) :
    Option (shared_mutex T × Except E R) :=
  match b.read with
  | none => none
  | some g =>
    match body g.get with
    | .ok r => some (shared_mutex.release_read g, .ok r)
    | .error e => some (shared_mutex.release_read g, .error e)

/-- Scope `{ auto g = box.write(); body(g); }` on a shared box. -/
def shared_mutex.with_write {T E R : Type} (b : shared_mutex T) (body : T → T × Except E R) :
    Option (shared_mutex T × Except E R) :=
  match b.write with
  | none => none
  | some g =>
    match body g.get with
    | (v, .ok r) => some (shared_mutex.release_write (g.store .get v), .ok r)
    | (v, .error e) => some (shared_mutex.release_write (g.store .get v), .error e)

/-! ## Several threads on one exclusive box -/

/-- Threads are identified by numbers. -/
abbrev ThreadId := Nat

/-- An exclusive box shared by threads, with the owners of the guards currently alive. -/
structure ExclState (T : Type) where
  box : mutex T
  guards : List ThreadId
deriving DecidableEq, Repr

/-- What a thread can do with an exclusive box. -/
inductive ExclEvent (T : Type) where
  | lock (t : ThreadId)
  | store (t : ThreadId) (a : Accessor) (w : T)
  | drop (t : ThreadId)
deriving DecidableEq, Repr

/-- The fields a live guard refers to, read off the box. -/
def mutex.view {T : Type} (b : mutex T) : impl.mutex_lock_guard T := ⟨b.m_value, b.m_mutex⟩

/-- The box as seen through the references of a live guard. -/
def mutex.of_guard {T : Type} (g : impl.mutex_lock_guard T) : mutex T := ⟨g.m_ref, g.m_mutex_ref⟩

/-- A freshly constructed box around `v`: every constructor ends with `m_mutex()`. -/
def ExclState.init {T : Type} (v : T) : ExclState T := ⟨⟨v, detail.mutex_t.init⟩, []⟩

/-- One step: `lock` completes only when the guard constructor gets the lock; `store` and
`drop` (guard destruction) need a live guard of the thread. -/
def ExclState.step {T : Type} (s : ExclState T) : ExclEvent T → Option (ExclState T)
  | .lock t =>
    match s.box.lock with
    | none => none
    | some g => some ⟨mutex.of_guard g, t :: s.guards⟩
  | .store t a w =>
    if t ∈ s.guards then some ⟨mutex.of_guard (s.box.view.store a w), s.guards⟩ else none
  | .drop t =>
    if t ∈ s.guards then some ⟨mutex.release s.box.view, s.guards.erase t⟩ else none

/-- Running a schedule of events; `none` when some event is not enabled. -/
def ExclState.run {T : Type} (s : ExclState T) : List (ExclEvent T) → Option (ExclState T)
  | [] => some s
  | e :: es =>
    match s.step e with
    | none => none
    | some s1 => s1.run es

/-- States some schedule reaches from a freshly constructed box. -/
def ExclState.Reachable {T : Type} (s : ExclState T) : Prop :=
  ∃ (v : T) (es : List (ExclEvent T)), (ExclState.init v).run es = some s

/-! ## Several threads on one shared box -/

/-- A shared box used by threads, with the owners of the live read and write guards. -/
structure SharedState (T : Type) where
  box : shared_mutex T
  read_guards : List ThreadId
  write_guards : List ThreadId
deriving DecidableEq, Repr

/-- What a thread can do with a shared box. -/
inductive SharedEvent (T : Type) where
  | read (t : ThreadId)
  | load (t : ThreadId) (a : Accessor)
  | drop_read (t : ThreadId)
  | write (t : ThreadId)
  | store (t : ThreadId) (a : Accessor) (w : T)
  | drop_write (t : ThreadId)
deriving DecidableEq, Repr

/-- The fields a live read guard refers to. -/
def shared_mutex.read_view {T : Type} (b : shared_mutex T) : impl.shared_mutex_read_guard T :=
  ⟨b.m_value, b.m_mutex⟩

/-- The fields a live write guard refers to. -/
def shared_mutex.write_view {T : Type} (b : shared_mutex T) : impl.shared_mutex_write_guard T :=
  ⟨b.m_value, b.m_mutex⟩

/-- A freshly constructed shared box around `v`. -/
def SharedState.init {T : Type} (v : T) : SharedState T :=
  ⟨⟨v, detail.shared_mutex_t.init⟩, [], []⟩

/-- One step of a shared box. -/
def SharedState.step {T : Type} (s : SharedState T) : SharedEvent T → Option (SharedState T)
  | .read t =>
    match s.box.read with
    | none => none
    | some g => some ⟨⟨g.m_ref, g.m_mutex_ref⟩, t :: s.read_guards, s.write_guards⟩
  | .load t _ =>
    if t ∈ s.read_guards then some s else none
  | .drop_read t =>
    if t ∈ s.read_guards then
      some ⟨shared_mutex.release_read s.box.read_view, s.read_guards.erase t, s.write_guards⟩
    else none
  | .write t =>
    match s.box.write with
    | none => none
    | some g => some ⟨⟨g.m_ref, g.m_mutex_ref⟩, s.read_guards, t :: s.write_guards⟩
  | .store t a w =>
    if t ∈ s.write_guards then
      some ⟨⟨(s.box.write_view.store a w).m_ref, s.box.m_mutex⟩, s.read_guards, s.write_guards⟩
    else none
  | .drop_write t =>
    if t ∈ s.write_guards then
      some ⟨shared_mutex.release_write s.box.write_view, s.read_guards, s.write_guards.erase t⟩
    else none

/-- Running a schedule of events; `none` when some event is not enabled. -/
def SharedState.run {T : Type} (s : SharedState T) : List (SharedEvent T) → Option (SharedState T)
  | [] => some s
  | e :: es =>
    match s.step e with
    | none => none
    | some s1 => s1.run es

/-- States some schedule reaches from a freshly constructed shared box. -/
def SharedState.Reachable {T : Type} (s : SharedState T) : Prop :=
  ∃ (v : T) (es : List (SharedEvent T)), (SharedState.init v).run es = some s

/-- The guard invariant of the data model: one writer and no reader, or no writer. -/
def SharedState.GuardInv {T : Type} (s : SharedState T) : Prop :=
  (s.write_guards.length = 1 ∧ s.read_guards.length = 0) ∨
  (s.write_guards.length = 0 ∧ 0 ≤ s.read_guards.length)

/-- Events of the read side: acquiring a read guard, reading through it, releasing it. -/
def SharedEvent.read_side {T : Type} : SharedEvent T → Bool
  | .read _ => true
  | .load _ _ => true
  | .drop_read _ => true
  | _ => false

/-- Events that destroy a read guard. -/
def SharedEvent.is_drop_read {T : Type} : SharedEvent T → Bool
  | .drop_read _ => true
  | _ => false

/-- The schedule in which threads `n-1, ..., 0` each take a read guard. -/
def SharedEvent.readers (T : Type) (n : Nat) : List (SharedEvent T) :=
  (List.range n).reverse.map SharedEvent.read

/-- The schedule in which threads `0, ..., n-1` each destroy their read guard. -/
def SharedEvent.drops (T : Type) (n : Nat) : List (SharedEvent T) :=
  (List.range n).map SharedEvent.drop_read

/-! ## Construction of a box

Each box class declares six constructor templates.  The first five are switched on and off
by an `enable_if` condition over type traits of `T`; the sixth is variadic and always
present.  Which one a construction uses is decided by C++ overload resolution among the
enabled ones, modelled below for the three argument forms of interest.
-/

/-- The type traits of `T` that the `enable_if` conditions consult. -/
structure Traits where
  is_move_constructible : Bool
  is_move_assignable : Bool
  is_trivially_move_constructible : Bool
  is_trivially_move_assignable : Bool
  is_trivially_copy_constructible : Bool
deriving DecidableEq, Repr

/-- Trait values some C++ type can have: a trivially available operation is available. -/
def Traits.consistent (p : Traits) : Bool :=
  (!p.is_trivially_move_constructible || p.is_move_constructible) &&
  (!p.is_trivially_move_assignable || p.is_move_assignable)

/-- The six constructor templates of a box, in declaration order. -/
inductive Ctor where
  | move_construct
  | move_assign
  | by_value_move_assign
  | copy_construct
  | copy_assign
  | in_place
deriving DecidableEq, Repr, Fintype

/-- All six constructors, in declaration order. -/
def Ctor.all : List Ctor :=
  [.move_construct, .move_assign, .by_value_move_assign, .copy_construct, .copy_assign,
   .in_place]

/-- The five constructors that carry an `enable_if` condition. -/
def Ctor.constrained (c : Ctor) : Bool :=
  match c with
  | .in_place => false
  | _ => true

/-- How a constructor declares its first parameter. -/
inductive ParamForm where
  | rvalue_ref
  | by_value
  | const_lvalue_ref
  | forwarding_pack
deriving DecidableEq, Repr

/-- Declared parameter of each constructor: `T &&value` (lines 108, 114), `T value`
(line 123), `const T &value` (lines 131, 140), `Args &&...args` (line 151). -/
def Ctor.param : Ctor → ParamForm
  | .move_construct => .rvalue_ref
  | .move_assign => .rvalue_ref
  | .by_value_move_assign => .by_value
  | .copy_construct => .const_lvalue_ref
  | .copy_assign => .const_lvalue_ref
  | .in_place => .forwarding_pack

/-- The `enable_if` conditions of `mutex` (lines 109, 115-116, 124-125, 132-135, 141-144);
the variadic constructor (lines 150-152) has none. -/
def mutex.enabled (p : Traits) : Ctor → Bool
  | .move_construct => p.is_move_constructible
  | .move_assign => !p.is_move_constructible && p.is_move_assignable
  | .by_value_move_assign => !p.is_move_constructible && p.is_move_assignable
  | .copy_construct =>
    !p.is_trivially_move_constructible && !p.is_trivially_move_assignable &&
    p.is_trivially_copy_constructible
  | .copy_assign =>
    !p.is_trivially_move_constructible && !p.is_trivially_move_assignable &&
    !p.is_trivially_copy_constructible && p.is_trivially_move_assignable
  | .in_place => true

/-- The `enable_if` conditions of `shared_mutex` (lines 170, 176-177, 185-186, 194-196,
203-206); the variadic constructor (lines 212-214) has none. -/
def shared_mutex.enabled (p : Traits) : Ctor → Bool
  | .move_construct => p.is_move_constructible
  | .move_assign => !p.is_move_constructible && p.is_move_assignable
  | .by_value_move_assign => !p.is_move_constructible && p.is_move_assignable
  | .copy_construct =>
    !p.is_trivially_move_constructible && !p.is_trivially_move_assignable &&
    p.is_trivially_copy_constructible
  | .copy_assign =>
    !p.is_trivially_move_constructible && !p.is_trivially_move_assignable &&
    !p.is_trivially_copy_constructible && p.is_trivially_move_assignable
  | .in_place => true

/-- The shape of the constructor arguments at the call: one rvalue of `T`, one `const`
lvalue of `T`, or any other argument list (several arguments, or one argument that is
not an object of type `T`).  A single non-`const` lvalue of `T` is none of the three and
is not modelled. -/
inductive ArgForm where
  | rvalue
  | const_lvalue
  | pack
deriving DecidableEq, Repr

/-- Whether a parameter of the given form can be initialised from the argument form
without a user-defined conversion: `T&&` binds rvalues only, `const T&` and a by-value `T`
take rvalues and `const` lvalues (for a class type and an argument of the same type the
conversion is the identity whether or not a copy or move constructor is usable, C++17
[over.best.ics]), the forwarding pack deduces to whatever is passed.  For the other
argument lists the `T`-typed parameters match at best through a user-defined conversion
and lose to the exact match of the forwarding pack, so they are left out. -/
def ParamForm.binds : ParamForm → ArgForm → Bool
  | .rvalue_ref, .rvalue => true
  | .by_value, .rvalue => true
  | .by_value, .const_lvalue => true
  | .const_lvalue_ref, .rvalue => true
  | .const_lvalue_ref, .const_lvalue => true
  | .forwarding_pack, _ => true
  | _, _ => false

/-- Ranking of conversions (C++17 [over.ics.rank]): for an rvalue argument, binding an
rvalue reference (`T&&`, or `Args&&` deduced to `T&&`) is better than binding `const T&`.
All other pairs of bindings considered here are identity conversions that do not differ
in rank; in particular a by-value `T` ties with both `T&&` and `const T&`. -/
def ParamForm.better_conversion (a : ArgForm) (x y : ParamForm) : Bool :=
  a == .rvalue && (x == .rvalue_ref || x == .forwarding_pack) && y == .const_lvalue_ref

/-- Tie-break between templates (C++17 [over.match.best], [temp.deduct.partial]): a
constructor template with a fixed first parameter is more specialised than the variadic
forwarding constructor, since a fixed parameter cannot be deduced from a parameter pack.
Two templates with fixed parameters (`T&&`, `T`, `const T&`) are not ordered. -/
def Ctor.more_specialized (c d : Ctor) : Bool :=
  c.constrained && !d.constrained

/-- Rule for the better candidate (C++17 [over.match.best]): a better conversion, or no
worse a conversion and the more specialised template. -/
def Ctor.better (a : ArgForm) (c d : Ctor) : Bool :=
  ParamForm.better_conversion a c.param d.param ||
  (!ParamForm.better_conversion a d.param c.param && c.more_specialized d)

/-- Candidates that take part in overload resolution for the argument form. -/
def viable (en : Ctor → Bool) (a : ArgForm) : List Ctor :=
  Ctor.all.filter fun c => en c && c.param.binds a

/-- Outcome of overload resolution. -/
inductive Resolution where
  | selected (c : Ctor)
  | ambiguous
deriving DecidableEq, Repr

/-- Overload resolution: the viable candidate that is better than every other viable one;
the call is ambiguous (ill-formed) when there is none. -/
def select (en : Ctor → Bool) (a : ArgForm) : Resolution :=
  match (viable en a).filter
      (fun c => (viable en a).all fun d => d == c || Ctor.better a c d) with
  | [c] => .selected c
  | _ => .ambiguous

/-- Operations on `T` that a constructor performs to fill `m_value`. -/
inductive ValueOp where
  | default_construct
  | move_construct
  | copy_construct
  | move_assign
  | copy_assign
  | in_place_construct
deriving DecidableEq, Repr

/-- Constructor arguments: an rvalue of `T`, a `const` lvalue of `T`, or other arguments
(of type `A`) from which `T` builds a value. -/
inductive Arg (T A : Type) where
  | rvalue (x : T)
  | const_lvalue (x : T)
  | pack (args : A)
deriving DecidableEq, Repr

/-- The form of an argument. -/
def Arg.form {T A : Type} : Arg T A → ArgForm
  | .rvalue _ => .rvalue
  | .const_lvalue _ => .const_lvalue
  | .pack _ => .pack

/-- What each constructor stores in `m_value` and by which operations on `T`; `make` is
the constructor of `T` that takes the other arguments.  Moving, copying and assigning a
value of `T` are taken to hand over that value.  The copy a by-value parameter needs is
made by the caller and is not listed.  Whether `T` has the operations is checked by
`Traits.offers` when a box is constructed.
* line 110 `m_value(std::move(value))`;
* lines 117-119 and 126-128: `m_value` left out of the initialiser list (default
  construction), then `m_value = std::move(value)`;
* line 136 `m_value(value)`;
* lines 146-148: default construction, then `m_value = value`;
* line 152 `m_value(std::forward<decltype(args)>(args)...)`. -/
def place {T A : Type} (make : A → T) : Ctor → Arg T A → Option (T × List ValueOp)
  | .move_construct, .rvalue x => some (x, [.move_construct])
  | .move_assign, .rvalue x => some (x, [.default_construct, .move_assign])
  | .by_value_move_assign, .rvalue x => some (x, [.default_construct, .move_assign])
  | .by_value_move_assign, .const_lvalue x => some (x, [.default_construct, .move_assign])
  | .copy_construct, .rvalue x => some (x, [.copy_construct])
  | .copy_construct, .const_lvalue x => some (x, [.copy_construct])
  | .copy_assign, .rvalue x => some (x, [.default_construct, .copy_assign])
  | .copy_assign, .const_lvalue x => some (x, [.default_construct, .copy_assign])
  | .in_place, .rvalue x => some (x, [.move_construct])
  | .in_place, .const_lvalue x => some (x, [.copy_construct])
  | .in_place, .pack args => some (make args, [.in_place_construct])
  | _, _ => none

/-- A constructed box with the constructor that built it and the operations it ran. -/
structure Built (B : Type) where
  box : B
  strategy : Ctor
  ops : List ValueOp
deriving DecidableEq, Repr

/-- Whether `T` has an operation, as far as the traits tell.  Move construction and move
assignment are traits.  Default construction, copying and construction from other
arguments are not among the traits the header consults; they are taken as present. -/
def Traits.offers (p : Traits) : ValueOp → Bool
  | .move_construct => p.is_move_constructible
  | .move_assign => p.is_move_assignable
  | _ => true

/-- Constructing a `mutex<T>`: overload resolution picks the constructor, which fills
`m_value` and default-constructs `m_mutex`.  `none` when the call is ill-formed: it is
ambiguous, or the body of the selected constructor uses a move operation that `T` does
not have. -/
def mutex.construct {T A : Type} (p : Traits) (make : A → T) (arg : Arg T A) :
    Option (Built (mutex T)) :=
  match select (mutex.enabled p) arg.form with
  | .ambiguous => none
  | .selected c =>
    match place make c arg with
    | none => none
    | some (v, ops) =>
      if ops.all p.offers then some ⟨⟨v, detail.mutex_t.init⟩, c, ops⟩ else none

/-- Constructing a `shared_mutex<T>`, likewise. -/
def shared_mutex.construct {T A : Type} (p : Traits) (make : A → T) (arg : Arg T A) :
    Option (Built (shared_mutex T)) :=
  match select (shared_mutex.enabled p) arg.form with
  | .ambiguous => none
  | .selected c =>
    match place make c arg with
    | none => none
    | some (v, ops) =>
      if ops.all p.offers then some ⟨⟨v, detail.shared_mutex_t.init⟩, c, ops⟩ else none

/-- Whether an operation is a move of `T`. -/
def ValueOp.is_move : ValueOp → Bool
  | .move_construct => true
  | .move_assign => true
  | _ => false

/-- The value a box is constructed with. -/
def Arg.value {T A : Type} (make : A → T) : Arg T A → T
  | .rvalue x => x
  | .const_lvalue x => x
  | .pack args => make args

/-- Lock bit and number of live guards of an exclusive box agree. -/
def ExclState.Inv {T : Type} (s : ExclState T) : Prop :=
  s.guards.length = if s.box.m_mutex.locked then 1 else 0

/-- Lock state and live guards of a shared box agree: the shared count is the number of
read guards; a set writer bit means one write guard and no read guard, a clear one means
no write guard. -/
def SharedState.Inv {T : Type} (s : SharedState T) : Prop :=
  s.box.m_mutex.readers = s.read_guards.length ∧
  (if s.box.m_mutex.writer then s.write_guards.length = 1 ∧ s.read_guards.length = 0
   else s.write_guards.length = 0)

/-! ## Theorems -/

/-! ### Exclusive box -/

theorem construct_box {T A : Type} (p : Traits) (make : A → T) (arg : Arg T A)
    (built : Built (mutex T)) (h : mutex.construct p make arg = some built) :
    built.box = ⟨arg.value make, detail.mutex_t.init⟩ := by
  unfold mutex.construct at h
  cases hsel : select (mutex.enabled p) arg.form with
  | ambiguous => simp [hsel] at h
  | selected c =>
    simp only [hsel] at h
    cases c <;> cases arg <;> simp [place] at h <;> obtain ⟨_, h⟩ := h <;> subst h <;> rfl

theorem lock_free_box {T : Type} (b : mutex T) (h : b.m_mutex = detail.mutex_t.init) :
    b.lock = some ⟨b.m_value, ⟨true⟩⟩ := by
  simp [mutex.lock, impl.mutex_lock_guard.ctor, detail.mutex_t.lock, h, detail.mutex_t.init]

theorem excl_step_inv {T : Type} (s s1 : ExclState T) (e : ExclEvent T)
    (h : s.Inv) (hs : s.step e = some s1) : s1.Inv := by
  obtain ⟨⟨v, ⟨l⟩⟩, gs⟩ := s
  cases e with
  | lock t =>
    cases l <;>
      simp [ExclState.step, mutex.lock, impl.mutex_lock_guard.ctor, detail.mutex_t.lock] at hs
    subst hs
    simp [ExclState.Inv] at h
    simp [ExclState.Inv, mutex.of_guard, h]
  | store t a w =>
    simp only [ExclState.step] at hs
    split at hs
    · simp at hs
      subst hs
      cases a <;> simpa [ExclState.Inv, mutex.of_guard, mutex.view,
        impl.mutex_lock_guard.store] using h
    · simp at hs
  | drop t =>
    simp only [ExclState.step] at hs
    split at hs
    · rename_i hmem
      simp at hs
      subst hs
      have hpos : 0 < gs.length := List.length_pos_of_mem hmem
      cases l
      · simp [ExclState.Inv] at h
        simp [h] at hmem
      · simp [ExclState.Inv] at h
        simp [ExclState.Inv, mutex.release, mutex.view, impl.mutex_lock_guard.dtor,
          detail.mutex_t.unlock, List.length_erase_of_mem hmem, h]
    · simp at hs

theorem excl_run_inv {T : Type} (es : List (ExclEvent T)) :
    ∀ (s s1 : ExclState T), s.Inv → s.run es = some s1 → s1.Inv := by
  induction es with
  | nil =>
    intro s s1 h hr
    simp [ExclState.run] at hr
    subst hr
    exact h
  | cons e es ih =>
    intro s s1 h hr
    simp only [ExclState.run] at hr
    cases hstep : s.step e with
    | none => simp [hstep] at hr
    | some s2 =>
      simp only [hstep] at hr
      exact ih s2 s1 (excl_step_inv s s2 e h hstep) hr

theorem excl_reachable_inv {T : Type} (s : ExclState T) (h : s.Reachable) : s.Inv := by
  obtain ⟨v, es, hr⟩ := h
  exact excl_run_inv es _ s (by simp [ExclState.Inv, ExclState.init, detail.mutex_t.init]) hr

/-- C1: a `mutex<T>` constructed with value `v`, then `lock()`, an assignment of `w`
through the guard (by any of `get()`, `operator*`, `operator->`), destruction of the
guard and a second `lock()`: reading through the second guard gives `w`, and reading
through the first guard before the assignment gives `v`.  Both `lock()` calls return. -/
theorem C1_lock_assign_release_lock_reads_assigned {T A : Type} (p : Traits) (make : A → T)
    (arg : Arg T A) (built : Built (mutex T)) (w : T) (a0 a1 a2 : Accessor)
    (h : mutex.construct p make arg = some built) :
    (built.box.lock.map fun g => g.load a0) = some (arg.value make) ∧
    (built.box.lock.bind fun g1 =>
      (mutex.release (g1.store a1 w)).lock.map fun g2 => g2.load a2) = some w := by
  have hb := construct_box p make arg built h
  have hl := lock_free_box built.box (by rw [hb])
  rw [hl]
  constructor
  · cases a0 <;> simp [impl.mutex_lock_guard.load, impl.mutex_lock_guard.get,
      impl.mutex_lock_guard.deref, impl.mutex_lock_guard.arrow, hb]
  · cases a1 <;> cases a2 <;>
      simp [impl.mutex_lock_guard.load, impl.mutex_lock_guard.get,
        impl.mutex_lock_guard.deref, impl.mutex_lock_guard.arrow,
        impl.mutex_lock_guard.store, mutex.release, impl.mutex_lock_guard.dtor,
        detail.mutex_t.unlock, mutex.lock, impl.mutex_lock_guard.ctor, detail.mutex_t.lock]

/-- Witness for C1: `mutex<int>(5)`, set to 10 through `get()`, read back through
`operator*`. -/
theorem C1_witness_five_then_ten :
    mutex.construct (A := Unit) ⟨true, true, true, true, true⟩ (fun _ => (0 : Int))
        (Arg.rvalue 5) = some ⟨⟨5, detail.mutex_t.init⟩, .move_construct, [.move_construct]⟩ ∧
    ((⟨5, detail.mutex_t.init⟩ : mutex Int).lock.map fun g => g.load .get) = some 5 ∧
    ((⟨5, detail.mutex_t.init⟩ : mutex Int).lock.bind fun g1 =>
      (mutex.release (g1.store .get 10)).lock.map fun g2 => g2.load .deref) = some 10 :=
  ⟨by decide,
   C1_lock_assign_release_lock_reads_assigned (A := Unit) ⟨true, true, true, true, true⟩
     (fun _ => (0 : Int)) (Arg.rvalue 5)
     ⟨⟨5, detail.mutex_t.init⟩, .move_construct, [.move_construct]⟩ 10 .get .get .deref
     (by decide)⟩

/-- C2: in every state reachable by `lock()` (guard construction, enabled only on a free
lock), stores through a live guard, and guard destruction (`unlock()`), an exclusive box
has at most one live guard; any two threads holding a guard are the same thread; the lock
is held exactly when a guard is alive; and `lock()` can complete exactly when no guard is
alive. -/
theorem C2_exclusive_box_at_most_one_live_guard {T : Type} (s : ExclState T)
    (h : s.Reachable) :
    s.guards.length ≤ 1 ∧
    (∀ t1 t2 : ThreadId, t1 ∈ s.guards → t2 ∈ s.guards → t1 = t2) ∧
    (s.box.m_mutex.locked = true ↔ s.guards.length = 1) ∧
    (∀ t : ThreadId, (s.step (.lock t)).isSome = true ↔ s.guards = []) := by
  have hinv := excl_reachable_inv s h
  obtain ⟨⟨v, ⟨l⟩⟩, gs⟩ := s
  cases l
  · have hnil : gs = [] := by simpa [ExclState.Inv] using hinv
    subst hnil
    simp [ExclState.step, mutex.lock, impl.mutex_lock_guard.ctor, detail.mutex_t.lock]
  · have hone : gs.length = 1 := by simpa [ExclState.Inv] using hinv
    refine ⟨by simp [hone], ?_, by simp [hone], ?_⟩
    · intro t1 t2 h1 h2
      obtain ⟨x, rfl⟩ := List.length_eq_one.mp hone
      simp at h1 h2
      rw [h1, h2]
    · intro t
      have hne : gs ≠ [] := by
        intro hnil
        simp [hnil] at hone
      simp [ExclState.step, mutex.lock, impl.mutex_lock_guard.ctor, detail.mutex_t.lock, hne]

/-- Witness for C2: after thread 1 takes the guard of a box holding 5, one guard is alive
and a second `lock()` does not complete. -/
theorem C2_witness_one_holder :
    (⟨⟨5, ⟨true⟩⟩, [1]⟩ : ExclState Nat).Reachable ∧
    (⟨⟨5, ⟨true⟩⟩, [1]⟩ : ExclState Nat).guards.length ≤ 1 ∧
    ((⟨⟨5, ⟨true⟩⟩, [1]⟩ : ExclState Nat).step (.lock 2)).isSome = false :=
  have hr : (⟨⟨5, ⟨true⟩⟩, [1]⟩ : ExclState Nat).Reachable := ⟨5, [.lock 1], rfl⟩
  ⟨hr, (C2_exclusive_box_at_most_one_live_guard _ hr).1, by decide⟩

/-! ### Shared box -/

theorem shared_step_inv {T : Type} (s s1 : SharedState T) (e : SharedEvent T)
    (h : s.Inv) (hs : s.step e = some s1) : s1.Inv := by
  obtain ⟨⟨v, ⟨wr, n⟩⟩, rs, ws⟩ := s
  simp only [SharedState.Inv] at h
  obtain ⟨hn, hw⟩ := h
  cases e with
  | read t =>
    cases wr <;>
      simp [SharedState.step, shared_mutex.read, impl.shared_mutex_read_guard.ctor,
        detail.shared_mutex_t.lock_shared] at hs
    subst hs
    simp at hw
    simp [SharedState.Inv, hn, hw]
  | load t a =>
    simp only [SharedState.step] at hs
    split at hs
    · simp at hs
      subst hs
      exact ⟨hn, hw⟩
    · simp at hs
  | drop_read t =>
    simp only [SharedState.step] at hs
    split at hs
    · rename_i hmem
      simp at hs
      subst hs
      have hpos : 0 < rs.length := List.length_pos_of_mem hmem
      cases wr
      · simp at hw
        simp [SharedState.Inv, shared_mutex.release_read, shared_mutex.read_view,
          impl.shared_mutex_read_guard.dtor, detail.shared_mutex_t.unlock_shared,
          List.length_erase_of_mem hmem, hn, hw]
      · simp at hw
        simp [hw.2] at hmem
    · simp at hs
  | write t =>
    cases wr
    · by_cases hz : n = 0
      · simp [SharedState.step, shared_mutex.write, impl.shared_mutex_write_guard.ctor,
          detail.shared_mutex_t.lock, hz] at hs
        subst hs
        simp at hw
        subst hz
        have hrs : rs.length = 0 := hn.symm
        simp [SharedState.Inv, hw, hrs]
      · simp [SharedState.step, shared_mutex.write, impl.shared_mutex_write_guard.ctor,
          detail.shared_mutex_t.lock, hz] at hs
    · simp [SharedState.step, shared_mutex.write, impl.shared_mutex_write_guard.ctor,
        detail.shared_mutex_t.lock] at hs
  | store t a w =>
    simp only [SharedState.step] at hs
    split at hs
    · simp at hs
      subst hs
      exact ⟨hn, hw⟩
    · simp at hs
  | drop_write t =>
    simp only [SharedState.step] at hs
    split at hs
    · rename_i hmem
      simp at hs
      subst hs
      have hpos : 0 < ws.length := List.length_pos_of_mem hmem
      cases wr
      · simp at hw
        simp [hw] at hmem
      · simp at hw
        simp [SharedState.Inv, shared_mutex.release_write, shared_mutex.write_view,
          impl.shared_mutex_write_guard.dtor, detail.shared_mutex_t.unlock,
          List.length_erase_of_mem hmem, hn, hw]
    · simp at hs

theorem shared_run_inv {T : Type} (es : List (SharedEvent T)) :
    ∀ (s s1 : SharedState T), s.Inv → s.run es = some s1 → s1.Inv := by
  induction es with
  | nil =>
    intro s s1 h hr
    simp [SharedState.run] at hr
    subst hr
    exact h
  | cons e es ih =>
    intro s s1 h hr
    simp only [SharedState.run] at hr
    cases hstep : s.step e with
    | none => simp [hstep] at hr
    | some s2 =>
      simp only [hstep] at hr
      exact ih s2 s1 (shared_step_inv s s2 e h hstep) hr

theorem shared_init_inv {T : Type} (v : T) : (SharedState.init v).Inv := by
  simp [SharedState.Inv, SharedState.init, detail.shared_mutex_t.init]

theorem shared_reachable_inv {T : Type} (s : SharedState T) (h : s.Reachable) :
    s.Inv := by
  obtain ⟨v, es, hr⟩ := h
  exact shared_run_inv es _ s (shared_init_inv v) hr

theorem shared_step_read_guards {T : Type} (s s1 : SharedState T) (e : SharedEvent T)
    (hs : s.step e = some s1) :
    s.read_guards.length ≤ s1.read_guards.length + (if e.is_drop_read then 1 else 0) := by
  cases e with
  | read t =>
    simp only [SharedState.step] at hs
    split at hs
    · simp at hs
    · simp at hs
      subst hs
      simp [SharedEvent.is_drop_read]
  | load t a =>
    simp only [SharedState.step] at hs
    split at hs
    · simp at hs
      subst hs
      simp
    · simp at hs
  | drop_read t =>
    simp only [SharedState.step] at hs
    split at hs
    · rename_i hmem
      simp at hs
      subst hs
      have hpos : 0 < s.read_guards.length := List.length_pos_of_mem hmem
      simp [SharedEvent.is_drop_read, List.length_erase_of_mem hmem]
      omega
    · simp at hs
  | write t =>
    simp only [SharedState.step] at hs
    split at hs
    · simp at hs
    · simp at hs
      subst hs
      simp
  | store t a w =>
    simp only [SharedState.step] at hs
    split at hs
    · simp at hs
      subst hs
      simp
    · simp at hs
  | drop_write t =>
    simp only [SharedState.step] at hs
    split at hs
    · simp at hs
      subst hs
      simp
    · simp at hs

theorem shared_run_read_guards {T : Type} (es : List (SharedEvent T)) :
    ∀ (s s1 : SharedState T), s.run es = some s1 →
      s.read_guards.length ≤ s1.read_guards.length +
        (es.filter SharedEvent.is_drop_read).length := by
  induction es with
  | nil =>
    intro s s1 hr
    simp [SharedState.run] at hr
    subst hr
    simp
  | cons e es ih =>
    intro s s1 hr
    simp only [SharedState.run] at hr
    cases hstep : s.step e with
    | none => simp [hstep] at hr
    | some s2 =>
      simp only [hstep] at hr
      have h1 := shared_step_read_guards s s2 e hstep
      have h2 := ih s2 s1 hr
      cases hd : e.is_drop_read <;> simp [List.filter_cons, hd] at h1 ⊢ <;> omega

theorem shared_run_reads {T : Type} (v : T) (ws : List ThreadId) (l : List ThreadId) :
    ∀ (k : Nat) (rs : List ThreadId),
      (⟨⟨v, ⟨false, k⟩⟩, rs, ws⟩ : SharedState T).run (l.map SharedEvent.read) =
        some ⟨⟨v, ⟨false, k + l.length⟩⟩, l.reverse ++ rs, ws⟩ := by
  induction l with
  | nil =>
    intro k rs
    simp [SharedState.run]
  | cons t l ih =>
    intro k rs
    simp only [List.map_cons, SharedState.run, SharedState.step, shared_mutex.read,
      impl.shared_mutex_read_guard.ctor, detail.shared_mutex_t.lock_shared]
    simp only [Bool.false_eq_true, if_false]
    rw [ih (k + 1) (t :: rs)]
    simp
    omega

theorem shared_run_drops {T : Type} (v : T) (ws : List ThreadId) (l : List ThreadId) :
    ∀ (k : Nat) (rs : List ThreadId),
      (⟨⟨v, ⟨false, l.length + k⟩⟩, l ++ rs, ws⟩ : SharedState T).run
          (l.map SharedEvent.drop_read) =
        some ⟨⟨v, ⟨false, k⟩⟩, rs, ws⟩ := by
  induction l with
  | nil =>
    intro k rs
    simp [SharedState.run]
  | cons t l ih =>
    intro k rs
    simp only [List.map_cons, SharedState.run, SharedState.step, List.cons_append,
      List.mem_cons, true_or, if_true, List.erase_cons_head, shared_mutex.release_read,
      shared_mutex.read_view, impl.shared_mutex_read_guard.dtor,
      detail.shared_mutex_t.unlock_shared, List.length_cons]
    have hk : l.length + 1 + k - 1 = l.length + k := by omega
    rw [hk]
    exact ih k rs

theorem shared_write_enabled_iff {T : Type} (s : SharedState T) (t : ThreadId) :
    (s.step (.write t)).isSome = true ↔
      s.box.m_mutex.writer = false ∧ s.box.m_mutex.readers = 0 := by
  obtain ⟨⟨v, ⟨wr, n⟩⟩, rs, ws⟩ := s
  cases wr
  · by_cases hz : n = 0 <;>
      simp [SharedState.step, shared_mutex.write, impl.shared_mutex_write_guard.ctor,
        detail.shared_mutex_t.lock, hz]
  · simp [SharedState.step, shared_mutex.write, impl.shared_mutex_write_guard.ctor,
      detail.shared_mutex_t.lock]

theorem shared_read_enabled_iff {T : Type} (s : SharedState T) (t : ThreadId) :
    (s.step (.read t)).isSome = true ↔ s.box.m_mutex.writer = false := by
  obtain ⟨⟨v, ⟨wr, n⟩⟩, rs, ws⟩ := s
  cases wr <;>
    simp [SharedState.step, shared_mutex.read, impl.shared_mutex_read_guard.ctor,
      detail.shared_mutex_t.lock_shared]

theorem shared_inv_writer_iff {T : Type} (s : SharedState T) (h : s.Inv) :
    (s.box.m_mutex.writer = false ↔ s.write_guards = []) ∧
    (s.box.m_mutex.readers = 0 ↔ s.read_guards = []) ∧ s.GuardInv := by
  obtain ⟨⟨v, ⟨wr, n⟩⟩, rs, ws⟩ := s
  obtain ⟨hn, hw⟩ := h
  simp only at hn hw
  subst hn
  cases wr
  · simp at hw
    simp [hw, SharedState.GuardInv]
  · simp at hw
    obtain ⟨h1, h2⟩ := hw
    subst h2
    refine ⟨?_, by simp, Or.inl ⟨h1, rfl⟩⟩
    constructor
    · intro hf
      cases hf
    · intro hnil
      have hws : ws = [] := hnil
      subst hws
      simp at h1

/-- C3: in every state of a shared box reachable by `read()` (enabled only without a
writer), `write()` (enabled only without writer and readers), accesses through live
guards and guard destruction, either one write guard and no read guard are alive, or no
write guard and any number of read guards; `read()` completes exactly when no write guard
is alive and `write()` exactly when no guard at all is alive.  For every `n` the state
with `n` simultaneous read guards is reached by `n` calls of `read()`; from it `write()`
does not complete while `n > 0`, every schedule leading from it to a state where a
`write()` completes contains at least `n` read-guard destructions and ends with no read
guard alive, and once the `n` read guards are destroyed `write()` does complete. -/
theorem C3_shared_box_writer_excludes_readers {T : Type} :
    (∀ s : SharedState T, s.Reachable →
      s.GuardInv ∧
      (∀ t : ThreadId, (s.step (.read t)).isSome = true ↔ s.write_guards = []) ∧
      (∀ t : ThreadId, (s.step (.write t)).isSome = true ↔
        s.write_guards = [] ∧ s.read_guards = [])) ∧
    (∀ (v : T) (n : Nat), ∃ s : SharedState T,
      (SharedState.init v).run (SharedEvent.readers T n) = some s ∧
      s.read_guards.length = n ∧ s.write_guards.length = 0 ∧
      (0 < n → ∀ t : ThreadId, s.step (.write t) = none) ∧
      (∀ (es : List (SharedEvent T)) (s1 s2 : SharedState T) (t : ThreadId),
        s.run es = some s1 → s1.step (.write t) = some s2 →
          s1.read_guards.length = 0 ∧ n ≤ (es.filter SharedEvent.is_drop_read).length) ∧
      (∃ s1 : SharedState T, s.run (SharedEvent.drops T n) = some s1 ∧
        s1.read_guards.length = 0 ∧ ∀ t : ThreadId, (s1.step (.write t)).isSome = true)) := by
  constructor
  · intro s hreach
    have hinv := shared_reachable_inv s hreach
    obtain ⟨hw, hr, hg⟩ := shared_inv_writer_iff s hinv
    refine ⟨hg, ?_, ?_⟩
    · intro t
      rw [shared_read_enabled_iff, hw]
    · intro t
      rw [shared_write_enabled_iff, hw, hr]
  · intro v n
    have hreads : (SharedState.init v).run (SharedEvent.readers T n) =
        some ⟨⟨v, ⟨false, n⟩⟩, List.range n, []⟩ := by
      have h := shared_run_reads v [] (List.range n).reverse 0 []
      simpa [SharedEvent.readers, SharedState.init, detail.shared_mutex_t.init] using h
    have hinv : (⟨⟨v, ⟨false, n⟩⟩, List.range n, []⟩ : SharedState T).Inv :=
      shared_run_inv _ _ _ (shared_init_inv v) hreads
    have hafter : ∀ (es : List (SharedEvent T)) (s1 s2 : SharedState T) (t : ThreadId),
        (⟨⟨v, ⟨false, n⟩⟩, List.range n, []⟩ : SharedState T).run es = some s1 →
        s1.step (.write t) = some s2 →
          s1.read_guards.length = 0 ∧ n ≤ (es.filter SharedEvent.is_drop_read).length := by
      intro es s1 s2 t hrun hstep
      have hinv1 := shared_run_inv es _ s1 hinv hrun
      have hen : (s1.step (.write t)).isSome = true := by simp [hstep]
      rw [shared_write_enabled_iff] at hen
      have hzero : s1.read_guards.length = 0 := by
        rw [← hinv1.1]
        exact hen.2
      have hcount := shared_run_read_guards es _ s1 hrun
      simp only [List.length_range] at hcount
      exact ⟨hzero, by omega⟩
    refine ⟨⟨⟨v, ⟨false, n⟩⟩, List.range n, []⟩, hreads, by simp, by simp, ?_, hafter, ?_⟩
    · intro hpos t
      cases hstep : (⟨⟨v, ⟨false, n⟩⟩, List.range n, []⟩ : SharedState T).step (.write t) with
      | none => rfl
      | some s2 =>
        have h := (hafter [] _ s2 t rfl hstep).2
        simp at h
        omega
    · refine ⟨⟨⟨v, ⟨false, 0⟩⟩, [], []⟩, ?_, by simp, ?_⟩
      · have h := shared_run_drops v [] (List.range n) 0 []
        simpa [SharedEvent.drops] using h
      · intro t
        rw [shared_write_enabled_iff]
        simp

/-- Witness for C3: on `shared_mutex<int>(7)`, threads 1 and 0 both hold read guards; the
state is reachable, `write()` does not complete in it, and it completes after both read
guards are destroyed. -/
theorem C3_witness_two_readers :
    (⟨⟨7, ⟨false, 2⟩⟩, [0, 1], []⟩ : SharedState Int).Reachable ∧
    (⟨⟨7, ⟨false, 2⟩⟩, [0, 1], []⟩ : SharedState Int).GuardInv ∧
    (⟨⟨7, ⟨false, 2⟩⟩, [0, 1], []⟩ : SharedState Int).step (.write 2) = none ∧
    ((⟨⟨7, ⟨false, 2⟩⟩, [0, 1], []⟩ : SharedState Int).run
      [.drop_read 0, .drop_read 1, .write 2]).isSome = true :=
  have hr : (⟨⟨7, ⟨false, 2⟩⟩, [0, 1], []⟩ : SharedState Int).Reachable :=
    ⟨7, [.read 1, .read 0], rfl⟩
  ⟨hr, (C3_shared_box_writer_excludes_readers.1 _ hr).1, by decide, by decide⟩

/-! ### Guard scopes -/

/-- C4: for each guard kind and every critical section, completing or failing, run in the
scope of a guard that could be constructed: the scope is left with the outcome of the
section, the guard held its lock while alive (exclusive hold for the exclusive and the
write guard, one more shared slot for the read guard), and the lock state after the scope
equals the lock state before the guard was constructed, so `lock()` / `write()` complete
afterwards (after a read guard: `read()` completes, and `write()` completes if it did
before). -/
theorem C4_guard_scope_restores_lock_state {T E R : Type} :
    (∀ (b : mutex T) (body : T → T × Except E R), b.lock.isSome = true →
      (∀ g, b.lock = some g → g.m_mutex_ref.locked = true) ∧
      ∃ b1 : mutex T, b.with_lock body = some (b1, (body b.m_value).2) ∧
        b1.m_value = (body b.m_value).1 ∧ b1.m_mutex = b.m_mutex ∧ b1.lock.isSome = true) ∧
    (∀ (b : shared_mutex T) (body : T → T × Except E R), b.write.isSome = true →
      (∀ g, b.write = some g → g.m_mutex_ref.writer = true) ∧
      ∃ b1 : shared_mutex T, b.with_write body = some (b1, (body b.m_value).2) ∧
        b1.m_value = (body b.m_value).1 ∧ b1.m_mutex = b.m_mutex ∧
        b1.write.isSome = true) ∧
    (∀ (b : shared_mutex T) (body : T → Except E R), b.read.isSome = true →
      (∀ g, b.read = some g → g.m_mutex_ref.readers = b.m_mutex.readers + 1) ∧
      ∃ b1 : shared_mutex T, b.with_read body = some (b1, body b.m_value) ∧
        b1.m_value = b.m_value ∧ b1.m_mutex = b.m_mutex ∧ b1.read.isSome = true ∧
        (b.write.isSome = true → b1.write.isSome = true)) := by
  refine ⟨?_, ?_, ?_⟩
  · rintro ⟨v, ⟨l⟩⟩ body hen
    cases l
    · refine ⟨?_, ⟨(body v).1, ⟨false⟩⟩, ?_, rfl, rfl, rfl⟩
      · intro g hg
        simp [mutex.lock, impl.mutex_lock_guard.ctor, detail.mutex_t.lock] at hg
        subst hg
        rfl
      · simp only [mutex.with_lock, mutex.lock, impl.mutex_lock_guard.ctor,
          detail.mutex_t.lock, impl.mutex_lock_guard.get]
        rcases hb : body v with ⟨v1, r | e⟩ <;>
          simp [hb, mutex.release, impl.mutex_lock_guard.store, impl.mutex_lock_guard.dtor,
            detail.mutex_t.unlock]
    · simp [mutex.lock, impl.mutex_lock_guard.ctor, detail.mutex_t.lock] at hen
  · rintro ⟨v, ⟨wr, n⟩⟩ body hen
    cases wr
    · by_cases hz : n = 0
      · subst hz
        refine ⟨?_, ⟨(body v).1, ⟨false, 0⟩⟩, ?_, rfl, rfl, rfl⟩
        · intro g hg
          simp [shared_mutex.write, impl.shared_mutex_write_guard.ctor,
            detail.shared_mutex_t.lock] at hg
          subst hg
          rfl
        · simp only [shared_mutex.with_write, shared_mutex.write,
            impl.shared_mutex_write_guard.ctor, detail.shared_mutex_t.lock,
            impl.shared_mutex_write_guard.get]
          rcases hb : body v with ⟨v1, r | e⟩ <;>
            simp [hb, shared_mutex.release_write, impl.shared_mutex_write_guard.store,
              impl.shared_mutex_write_guard.dtor, detail.shared_mutex_t.unlock]
      · simp [shared_mutex.write, impl.shared_mutex_write_guard.ctor,
          detail.shared_mutex_t.lock, hz] at hen
    · simp [shared_mutex.write, impl.shared_mutex_write_guard.ctor,
        detail.shared_mutex_t.lock] at hen
  · rintro ⟨v, ⟨wr, n⟩⟩ body hen
    cases wr
    · refine ⟨?_, ⟨v, ⟨false, n⟩⟩, ?_, rfl, rfl, rfl, fun h => h⟩
      · intro g hg
        simp [shared_mutex.read, impl.shared_mutex_read_guard.ctor,
          detail.shared_mutex_t.lock_shared] at hg
        subst hg
        rfl
      · simp only [shared_mutex.with_read, shared_mutex.read,
          impl.shared_mutex_read_guard.ctor, detail.shared_mutex_t.lock_shared,
          impl.shared_mutex_read_guard.get]
        rcases hb : body v with e | r <;>
          simp [hb, shared_mutex.release_read, impl.shared_mutex_read_guard.dtor,
            detail.shared_mutex_t.unlock_shared]
    · simp [shared_mutex.read, impl.shared_mutex_read_guard.ctor,
        detail.shared_mutex_t.lock_shared] at hen

/-- Witness for C4: a section on `mutex<int>(5)` that increments the value and then fails
with error 1 leaves the box unlocked, and the next `lock()` completes. -/
theorem C4_witness_failing_section :
    ((⟨5, detail.mutex_t.init⟩ : mutex Int).with_lock
        (fun v => (v + 1, (Except.error 1 : Except Nat Unit)))) =
      some (⟨6, detail.mutex_t.init⟩, Except.error 1) ∧
    ∃ b1 : mutex Int,
      (⟨5, detail.mutex_t.init⟩ : mutex Int).with_lock
          (fun v => (v + 1, (Except.error 1 : Except Nat Unit))) =
        some (b1, Except.error 1) ∧
      b1.m_value = 6 ∧ b1.m_mutex = detail.mutex_t.init ∧ b1.lock.isSome = true :=
  ⟨rfl, ((C4_guard_scope_restores_lock_state (T := Int) (E := Nat) (R := Unit)).1
    ⟨5, detail.mutex_t.init⟩ (fun v => (v + 1, Except.error 1)) rfl).2⟩

/-! ### Read guards leave the value alone -/

theorem shared_step_read_side {T : Type} (s s1 : SharedState T) (e : SharedEvent T)
    (he : e.read_side = true) (hs : s.step e = some s1) :
    s1.box.m_value = s.box.m_value ∧ s1.write_guards = s.write_guards := by
  cases e with
  | read t =>
    simp only [SharedState.step, shared_mutex.read, impl.shared_mutex_read_guard.ctor] at hs
    split at hs
    · simp at hs
    · rename_i g hg
      split at hg
      · simp at hg
      · simp at hg hs
        subst hs
        subst hg
        simp
  | load t a =>
    simp only [SharedState.step] at hs
    split at hs
    · simp at hs
      subst hs
      simp
    · simp at hs
  | drop_read t =>
    simp only [SharedState.step] at hs
    split at hs
    · simp at hs
      subst hs
      simp [shared_mutex.release_read, shared_mutex.read_view]
    · simp at hs
  | write t => simp [SharedEvent.read_side] at he
  | store t a w => simp [SharedEvent.read_side] at he
  | drop_write t => simp [SharedEvent.read_side] at he

theorem shared_run_read_side {T : Type} (es : List (SharedEvent T)) :
    ∀ (s s1 : SharedState T), (∀ e ∈ es, e.read_side = true) → s.run es = some s1 →
      s1.box.m_value = s.box.m_value := by
  induction es with
  | nil =>
    intro s s1 _ hr
    simp [SharedState.run] at hr
    subst hr
    rfl
  | cons e es ih =>
    intro s s1 hall hr
    simp only [SharedState.run] at hr
    cases hstep : s.step e with
    | none => simp [hstep] at hr
    | some s2 =>
      simp only [hstep] at hr
      have h1 := (shared_step_read_side s s2 e (hall e (by simp)) hstep).1
      have h2 := ih s2 s1 (fun x hx => hall x (by simp [hx])) hr
      rw [h2, h1]

/-- C10: any schedule made only of `read()` acquisitions, reads through `get()`,
`operator*` or `operator->` of a read guard, and read-guard destructions leaves the boxed
value as it was; the three accessors of a read guard all give the boxed value, and so do
those of the other two guards; a value is assigned only through an exclusive guard or a
write guard, whose accessors then show the assigned value, and a store on a shared box is
enabled only for the holder of a write guard. -/
theorem C10_read_guard_never_changes_value {T : Type} :
    (∀ (es : List (SharedEvent T)) (s s1 : SharedState T),
      (∀ e ∈ es, e.read_side = true) → s.run es = some s1 →
        s1.box.m_value = s.box.m_value) ∧
    (∀ (b : shared_mutex T) (g : impl.shared_mutex_read_guard T), b.read = some g →
      g.get = b.m_value ∧ g.deref = b.m_value ∧ g.arrow = b.m_value ∧
      (∀ a : Accessor, g.load a = b.m_value) ∧
      (shared_mutex.release_read g).m_value = b.m_value) ∧
    (∀ (b : shared_mutex T) (g : impl.shared_mutex_write_guard T), b.write = some g →
      g.get = b.m_value ∧ g.deref = b.m_value ∧ g.arrow = b.m_value) ∧
    (∀ (b : mutex T) (g : impl.mutex_lock_guard T), b.lock = some g →
      g.get = b.m_value ∧ g.deref = b.m_value ∧ g.arrow = b.m_value) ∧
    (∀ (g : impl.mutex_lock_guard T) (a a1 : Accessor) (w : T), (g.store a w).load a1 = w) ∧
    (∀ (g : impl.shared_mutex_write_guard T) (a a1 : Accessor) (w : T),
      (g.store a w).load a1 = w) ∧
    (∀ (s s1 : SharedState T) (t : ThreadId) (a : Accessor) (w : T),
      s.step (.store t a w) = some s1 → t ∈ s.write_guards ∧ s1.box.m_value = w) := by
  refine ⟨shared_run_read_side, ?_, ?_, ?_, ?_, ?_, ?_⟩
  · rintro ⟨v, ⟨wr, n⟩⟩ g hg
    cases wr <;>
      simp [shared_mutex.read, impl.shared_mutex_read_guard.ctor,
        detail.shared_mutex_t.lock_shared] at hg
    subst hg
    refine ⟨rfl, rfl, rfl, ?_, rfl⟩
    intro a
    cases a <;> rfl
  · rintro ⟨v, ⟨wr, n⟩⟩ g hg
    simp only [shared_mutex.write, impl.shared_mutex_write_guard.ctor] at hg
    split at hg
    · simp at hg
    · simp at hg
      subst hg
      exact ⟨rfl, rfl, rfl⟩
  · rintro ⟨v, ⟨l⟩⟩ g hg
    simp only [mutex.lock, impl.mutex_lock_guard.ctor] at hg
    split at hg
    · simp at hg
    · simp at hg
      subst hg
      exact ⟨rfl, rfl, rfl⟩
  · intro g a a1 w
    cases a <;> cases a1 <;> rfl
  · intro g a a1 w
    cases a <;> cases a1 <;> rfl
  · intro s s1 t a w hs
    simp only [SharedState.step] at hs
    split at hs
    · rename_i hmem
      simp at hs
      subst hs
      refine ⟨hmem, ?_⟩
      cases a <;> rfl
    · simp at hs

/-- Witness for C10: two threads take read guards on `shared_mutex<int>(7)`, read through
different accessors and release; the boxed value is still 7. -/
theorem C10_witness_two_readers_keep_value :
    (SharedState.init (7 : Int)).run
        [.read 0, .read 1, .load 0 .get, .load 1 .arrow, .drop_read 0, .load 1 .deref,
         .drop_read 1] = some (SharedState.init 7) ∧
    (SharedState.init (7 : Int)).box.m_value = 7 :=
  ⟨by decide, C10_read_guard_never_changes_value.1
    [.read 0, .read 1, .load 0 .get, .load 1 .arrow, .drop_read 0, .load 1 .deref,
     .drop_read 1] (SharedState.init 7) (SharedState.init 7) (by decide) (by decide)⟩

/-! ### Construction strategies -/

theorem shared_enabled_eq (p : Traits) : shared_mutex.enabled p = mutex.enabled p := by
  funext c
  cases c <;> rfl

theorem select_rvalue_of_move_constructible (p : Traits)
    (h : p.is_move_constructible = true) :
    select (mutex.enabled p) .rvalue = .selected .move_construct := by
  obtain ⟨mc, ma, tmc, tma, tcc⟩ := p
  simp only at h
  subst h
  cases ma <;> cases tmc <;> cases tma <;> cases tcc <;> decide

theorem select_const_lvalue_of_copy_only (p : Traits)
    (hcc : p.is_trivially_copy_constructible = true)
    (hmc : p.is_trivially_move_constructible = false)
    (hma : p.is_trivially_move_assignable = false)
    (hby : mutex.enabled p .by_value_move_assign = false) :
    select (mutex.enabled p) .const_lvalue = .selected .copy_construct := by
  obtain ⟨mc, ma, tmc, tma, tcc⟩ := p
  simp only at hcc hmc hma
  subst hcc hmc hma
  cases mc <;> cases ma <;> first | decide | (exact absurd hby (by decide))

/-- C5: for every move-constructible `T` and every rvalue `x` of `T`, constructing a
`mutex<T>` or a `shared_mutex<T>` from `x` selects the first constructor, which fills
`m_value` by exactly one move construction (no default construction, no assignment), and
a guard obtained afterwards shows `x` through each accessor. -/
theorem C5_move_constructible_rvalue_is_move_constructed {T A : Type} (p : Traits)
    (make : A → T) (x : T) (hmc : p.is_move_constructible = true) :
    mutex.construct p make (Arg.rvalue x) =
      some ⟨⟨x, detail.mutex_t.init⟩, .move_construct, [.move_construct]⟩ ∧
    shared_mutex.construct p make (Arg.rvalue x) =
      some ⟨⟨x, detail.shared_mutex_t.init⟩, .move_construct, [.move_construct]⟩ ∧
    (∀ a : Accessor,
      ((⟨x, detail.mutex_t.init⟩ : mutex T).lock.map fun g => g.load a) = some x ∧
      ((⟨x, detail.shared_mutex_t.init⟩ : shared_mutex T).read.map fun g => g.load a) =
        some x ∧
      ((⟨x, detail.shared_mutex_t.init⟩ : shared_mutex T).write.map fun g => g.load a) =
        some x) := by
  have hsel := select_rvalue_of_move_constructible p hmc
  refine ⟨?_, ?_, ?_⟩
  · simp [mutex.construct, Arg.form, hsel, place, Traits.offers, hmc]
  · simp [shared_mutex.construct, Arg.form, shared_enabled_eq, hsel, place, Traits.offers,
      hmc]
  · intro a
    cases a <;> exact ⟨rfl, rfl, rfl⟩

/-- Witness for C5: a type that is move-constructible and nothing else, built from the
rvalue 42. -/
theorem C5_witness_move_constructed :
    (⟨true, false, false, false, false⟩ : Traits).is_move_constructible = true ∧
    mutex.construct (A := Unit) ⟨true, false, false, false, false⟩ (fun _ => (0 : Int))
        (Arg.rvalue 42) =
      some ⟨⟨42, detail.mutex_t.init⟩, .move_construct, [.move_construct]⟩ :=
  ⟨rfl, (C5_move_constructible_rvalue_is_move_constructed (A := Unit)
    ⟨true, false, false, false, false⟩ (fun _ => (0 : Int)) 42 rfl).1⟩

/-- Counterexample to C6 as stated: a type with a trivial copy constructor, a deleted move
constructor and a user-written move assignment is trivially copy-constructible and
neither trivially move-constructible nor trivially move-assignable; for a `const` lvalue
both the by-value constructor (line 121) and the `const T&` constructor (line 130) are
enabled and bind equally well, so no constructor is selected and no box is built. -/
theorem C6_counterexample_by_value_constructor_competes :
    (⟨false, true, false, false, true⟩ : Traits).consistent = true ∧
    (⟨false, true, false, false, true⟩ : Traits).is_trivially_copy_constructible = true ∧
    (⟨false, true, false, false, true⟩ : Traits).is_trivially_move_constructible = false ∧
    (⟨false, true, false, false, true⟩ : Traits).is_trivially_move_assignable = false ∧
    mutex.enabled ⟨false, true, false, false, true⟩ .by_value_move_assign = true ∧
    mutex.enabled ⟨false, true, false, false, true⟩ .copy_construct = true ∧
    viable (mutex.enabled ⟨false, true, false, false, true⟩) .const_lvalue =
      [.by_value_move_assign, .copy_construct, .in_place] ∧
    select (mutex.enabled ⟨false, true, false, false, true⟩) .const_lvalue = .ambiguous ∧
    mutex.construct (A := Unit) ⟨false, true, false, false, true⟩ (fun _ => (0 : Int))
      (Arg.const_lvalue 3) = none := by
  decide

/-- C6 (amended): for every `T` that is trivially copy-constructible, neither trivially
move-constructible nor trivially move-assignable, and for which the by-value constructor
is not enabled, constructing a `mutex<T>` or a `shared_mutex<T>` from a `const` reference
to `s` selects the fourth constructor: the box holds `s`, placed by one copy
construction, and no move construction or move assignment of `T` runs. -/
theorem C6_copy_only_const_ref_is_copy_constructed {T A : Type} (p : Traits)
    (make : A → T) (s : T)
    (hcc : p.is_trivially_copy_constructible = true)
    (hmc : p.is_trivially_move_constructible = false)
    (hma : p.is_trivially_move_assignable = false)
    (hby : mutex.enabled p .by_value_move_assign = false) :
    (∃ built, mutex.construct p make (Arg.const_lvalue s) = some built ∧
      built.box = ⟨s, detail.mutex_t.init⟩ ∧ built.strategy = .copy_construct ∧
      built.ops = [.copy_construct] ∧ ∀ op ∈ built.ops, op.is_move = false) ∧
    (∃ built, shared_mutex.construct p make (Arg.const_lvalue s) = some built ∧
      built.box = ⟨s, detail.shared_mutex_t.init⟩ ∧ built.strategy = .copy_construct ∧
      built.ops = [.copy_construct] ∧ ∀ op ∈ built.ops, op.is_move = false) := by
  have hsel := select_const_lvalue_of_copy_only p hcc hmc hma hby
  constructor
  · refine ⟨⟨⟨s, detail.mutex_t.init⟩, .copy_construct, [.copy_construct]⟩, ?_, rfl, rfl,
      rfl, ?_⟩
    · simp [mutex.construct, Arg.form, hsel, place, Traits.offers]
    · simp [ValueOp.is_move]
  · refine ⟨⟨⟨s, detail.shared_mutex_t.init⟩, .copy_construct, [.copy_construct]⟩, ?_, rfl,
      rfl, rfl, ?_⟩
    · simp [shared_mutex.construct, Arg.form, shared_enabled_eq, hsel, place, Traits.offers]
    · simp [ValueOp.is_move]

/-- Witness for C6 (amended): a type whose only capability is trivial copy construction,
built from a `const` reference to 3. -/
theorem C6_witness_copy_only :
    mutex.enabled ⟨false, false, false, false, true⟩ .by_value_move_assign = false ∧
    ∃ built, mutex.construct (A := Unit) ⟨false, false, false, false, true⟩
        (fun _ => (0 : Int)) (Arg.const_lvalue 3) = some built ∧
      built.box = ⟨3, detail.mutex_t.init⟩ ∧ built.strategy = .copy_construct ∧
      built.ops = [.copy_construct] ∧ ∀ op ∈ built.ops, op.is_move = false :=
  ⟨rfl, (C6_copy_only_const_ref_is_copy_constructed (A := Unit)
    ⟨false, false, false, false, true⟩ (fun _ => (0 : Int)) 3 rfl rfl rfl rfl).1⟩

/-- C7 (the code departs from the claim): the move-assignment fallback is the second
constructor (`T&&`, lines 112-119; default construction of `m_value`, then
`m_value = std::move(value)`), enabled for `T` that is move-assignable and not
move-constructible.  The third constructor (by-value `T`, lines 121-128) carries the same
condition, binds an rvalue equally well and is not ordered against the second, so for a
move-only type without a move constructor the construction from an rvalue is ambiguous
and builds nothing, for both box classes; this holds for every `T` on which the fallback
is enabled, and overload resolution never selects the fallback for any `T` and argument
form. -/
theorem C7_move_assign_fallback_is_never_selected :
    (⟨false, true, false, false, false⟩ : Traits).consistent = true ∧
    mutex.enabled ⟨false, true, false, false, false⟩ .move_assign = true ∧
    mutex.enabled ⟨false, true, false, false, false⟩ .by_value_move_assign = true ∧
    viable (mutex.enabled ⟨false, true, false, false, false⟩) .rvalue =
      [.move_assign, .by_value_move_assign, .in_place] ∧
    Ctor.better .rvalue .move_assign .by_value_move_assign = false ∧
    Ctor.better .rvalue .by_value_move_assign .move_assign = false ∧
    select (mutex.enabled ⟨false, true, false, false, false⟩) .rvalue = .ambiguous ∧
    select (shared_mutex.enabled ⟨false, true, false, false, false⟩) .rvalue = .ambiguous ∧
    mutex.construct (A := Unit) ⟨false, true, false, false, false⟩ (fun _ => (0 : Int))
      (Arg.rvalue 9) = none ∧
    shared_mutex.construct (A := Unit) ⟨false, true, false, false, false⟩ (fun _ => (0 : Int))
      (Arg.rvalue 9) = none ∧
    (∀ p : Traits, mutex.enabled p .move_assign = true →
      select (mutex.enabled p) .rvalue = .ambiguous ∧
      select (shared_mutex.enabled p) .rvalue = .ambiguous) ∧
    (∀ (p : Traits) (a : ArgForm),
      select (mutex.enabled p) a ≠ .selected .move_assign ∧
      select (shared_mutex.enabled p) a ≠ .selected .move_assign) := by
  refine ⟨by decide, by decide, by decide, by decide, by decide, by decide, by decide,
    by decide, by decide, by decide, ?_, ?_⟩
  · rintro ⟨mc, ma, tmc, tma, tcc⟩ h
    rw [shared_enabled_eq]
    cases mc <;> cases ma <;> simp [mutex.enabled] at h
    cases tmc <;> cases tma <;> cases tcc <;> decide
  · rintro ⟨mc, ma, tmc, tma, tcc⟩ a
    rw [shared_enabled_eq]
    cases mc <;> cases ma <;> cases tmc <;> cases tma <;> cases tcc <;> cases a <;> decide

/-- C8 (the code departs from the claim): the condition of the fifth constructor (lines
141-144 and 203-206) asks for `T` to be both not trivially move-assignable and trivially
move-assignable, so it is false for every `T`.  For a trivially move-assignable `T` that
is neither trivially move-constructible nor trivially copy-constructible, construction
from a `const` reference therefore falls to the variadic constructor, which
copy-constructs `m_value` instead of default-constructing and assigning. -/
theorem C8_fifth_constructor_is_never_enabled :
    (∀ p : Traits, mutex.enabled p .copy_assign = false ∧
      shared_mutex.enabled p .copy_assign = false) ∧
    (⟨true, true, false, true, false⟩ : Traits).consistent = true ∧
    (⟨true, true, false, true, false⟩ : Traits).is_trivially_move_assignable = true ∧
    (⟨true, true, false, true, false⟩ : Traits).is_trivially_move_constructible = false ∧
    (⟨true, true, false, true, false⟩ : Traits).is_trivially_copy_constructible = false ∧
    select (mutex.enabled ⟨true, true, false, true, false⟩) .const_lvalue =
      .selected .in_place ∧
    select (shared_mutex.enabled ⟨true, true, false, true, false⟩) .const_lvalue =
      .selected .in_place ∧
    mutex.construct (A := Unit) ⟨true, true, false, true, false⟩ (fun _ => (0 : Int))
        (Arg.const_lvalue 3) =
      some ⟨⟨3, detail.mutex_t.init⟩, .in_place, [.copy_construct]⟩ ∧
    shared_mutex.construct (A := Unit) ⟨true, true, false, true, false⟩ (fun _ => (0 : Int))
        (Arg.const_lvalue 3) =
      some ⟨⟨3, detail.shared_mutex_t.init⟩, .in_place, [.copy_construct]⟩ := by
  refine ⟨?_, by decide, by decide, by decide, by decide, by decide, by decide, by decide,
    by decide⟩
  rintro ⟨mc, ma, tmc, tma, tcc⟩
  cases tma <;> simp [mutex.enabled, shared_mutex.enabled]

theorem enabled_binding_pair (p : Traits) (a : ArgForm) (c d : Ctor)
    (h3 : mutex.enabled p .by_value_move_assign = false)
    (hc : c.constrained = true) (hd : d.constrained = true)
    (ec : mutex.enabled p c = true) (bc : c.param.binds a = true)
    (ed : mutex.enabled p d = true) (bd : d.param.binds a = true) :
    c = d ∨ (a = .rvalue ∧ ((c = .move_construct ∧ d.param = .const_lvalue_ref) ∨
      (c.param = .const_lvalue_ref ∧ d = .move_construct))) := by
  obtain ⟨mc, ma, tmc, tma, tcc⟩ := p
  cases c <;> cases d <;> cases a <;>
    simp_all [mutex.enabled, Ctor.param, ParamForm.binds, Ctor.constrained]

theorem select_defined (p : Traits) (a : ArgForm)
    (h3 : mutex.enabled p .by_value_move_assign = false) :
    ∃ c : Ctor, select (mutex.enabled p) a = .selected c := by
  obtain ⟨mc, ma, tmc, tma, tcc⟩ := p
  cases mc <;> cases ma <;> cases tmc <;> cases tma <;> cases tcc <;> cases a <;>
    first
      | decide
      | exact absurd h3 (by decide)

/-- Counterexample to C9 as stated.
* A type with non-trivial move construction and a trivial copy constructor, rvalue
  argument: the first (`T&&`) and the fourth (`const T&`) constructor are both enabled
  and both accept the rvalue, so more than one constrained constructor accepting the
  argument form is enabled.
* A trivially copy-constructible type without move support, rvalue argument: the fourth
  constructor is enabled and accepts the rvalue, yet the variadic constructor is the one
  selected, so it is not selected only when none of them is enabled.
* A type without any of the five capabilities, rvalue argument: none of the constrained
  constructors is enabled and the variadic one is selected, but its body (line 152) needs
  the move construction `T` lacks and no box is built.
* A move-assignable type that is not move-constructible: the third constructor is enabled
  although the second is. -/
theorem C9_counterexample_enabled_constructors_overlap :
    ((⟨true, true, false, false, true⟩ : Traits).consistent = true ∧
      mutex.enabled ⟨true, true, false, false, true⟩ .move_construct = true ∧
      mutex.enabled ⟨true, true, false, false, true⟩ .copy_construct = true ∧
      Ctor.move_construct.param.binds .rvalue = true ∧
      Ctor.copy_construct.param.binds .rvalue = true ∧
      ¬ (∀ c d : Ctor, c.constrained = true → d.constrained = true →
          mutex.enabled ⟨true, true, false, false, true⟩ c = true →
          c.param.binds .rvalue = true →
          mutex.enabled ⟨true, true, false, false, true⟩ d = true →
          d.param.binds .rvalue = true → c = d)) ∧
    ((⟨false, false, false, false, true⟩ : Traits).consistent = true ∧
      mutex.enabled ⟨false, false, false, false, true⟩ .copy_construct = true ∧
      Ctor.copy_construct.param.binds .rvalue = true ∧
      select (mutex.enabled ⟨false, false, false, false, true⟩) .rvalue =
        .selected .in_place) ∧
    ((⟨false, false, false, false, false⟩ : Traits).consistent = true ∧
      (∀ c : Ctor, c.constrained = true →
        mutex.enabled ⟨false, false, false, false, false⟩ c = false) ∧
      select (mutex.enabled ⟨false, false, false, false, false⟩) .rvalue =
        .selected .in_place ∧
      mutex.construct (A := Unit) ⟨false, false, false, false, false⟩ (fun _ => (0 : Int))
        (Arg.rvalue 9) = none) ∧
    ((⟨false, true, false, false, false⟩ : Traits).consistent = true ∧
      mutex.enabled ⟨false, true, false, false, false⟩ .by_value_move_assign = true ∧
      mutex.enabled ⟨false, true, false, false, false⟩ .move_assign = true) := by
  refine ⟨⟨by decide, by decide, by decide, by decide, by decide, by decide⟩,
    ⟨by decide, by decide, by decide, by decide⟩,
    ⟨by decide, by decide, by decide, by decide⟩,
    ⟨by decide, by decide, by decide⟩⟩

/-- C9 (amended): for every capability profile, every argument form and both box classes,
where a constructor accepts an argument form when its parameter can bind it:
* when the by-value third constructor is not enabled, at most one of the five constrained
  constructors accepting the argument form is enabled, except that for an rvalue the
  first (`T&&`) and a `const T&` one may both be, and overload resolution selects
  exactly one constructor;
* the first constructor, when enabled, is the one selected for an rvalue;
* the constructor selected is enabled and accepts the argument form;
* the variadic sixth constructor is the one selected exactly when no constrained
  constructor accepting the argument form is enabled or, for an rvalue, only `const T&`
  ones are;
* the third constructor is enabled only for `T` on which the first is not. -/
theorem C9_selection_among_enabled_constructors (p : Traits) (a : ArgForm) :
    ∀ en : Ctor → Bool, (en = mutex.enabled p ∨ en = shared_mutex.enabled p) →
      (en .by_value_move_assign = false →
        (∀ c d : Ctor, c.constrained = true → d.constrained = true →
          en c = true → c.param.binds a = true →
          en d = true → d.param.binds a = true →
          c = d ∨ (a = .rvalue ∧ ((c = .move_construct ∧ d.param = .const_lvalue_ref) ∨
            (c.param = .const_lvalue_ref ∧ d = .move_construct)))) ∧
        ∃ c : Ctor, select en a = .selected c) ∧
      (en .move_construct = true → a = .rvalue →
        select en a = .selected .move_construct) ∧
      (∀ c : Ctor, select en a = .selected c → en c = true ∧ c.param.binds a = true) ∧
      (select en a = .selected .in_place ↔
        (∀ c : Ctor, c.constrained = true → ¬ (en c = true ∧ c.param.binds a = true)) ∨
        (a = .rvalue ∧ ∀ c : Ctor, c.constrained = true → en c = true →
          c.param.binds a = true → c.param = .const_lvalue_ref)) ∧
      (en .by_value_move_assign = true → en .move_construct = false) := by
  intro en hen
  have hen1 : en = mutex.enabled p := by
    rcases hen with h | h
    · exact h
    · rw [h, shared_enabled_eq]
  subst hen1
  refine ⟨fun h3 => ⟨fun c d hc hd ec bc ed bd =>
    enabled_binding_pair p a c d h3 hc hd ec bc ed bd, select_defined p a h3⟩, ?_⟩
  obtain ⟨mc, ma, tmc, tma, tcc⟩ := p
  cases mc <;> cases ma <;> cases tmc <;> cases tma <;> cases tcc <;> cases a <;>
    refine ⟨?_, ?_, ?_, ?_⟩ <;> decide

/-- Witness for C9 (amended): for a type with non-trivial move construction and a trivial
copy constructor the first and the fourth constructor are both enabled; an rvalue selects
the first, a `const` lvalue the fourth, other arguments the variadic one. -/
theorem C9_witness_first_beats_fourth_on_rvalue :
    mutex.enabled ⟨true, true, false, false, true⟩ .move_construct = true ∧
    mutex.enabled ⟨true, true, false, false, true⟩ .copy_construct = true ∧
    mutex.enabled ⟨true, true, false, false, true⟩ .by_value_move_assign = false ∧
    select (mutex.enabled ⟨true, true, false, false, true⟩) .rvalue =
      .selected .move_construct ∧
    select (mutex.enabled ⟨true, true, false, false, true⟩) .const_lvalue =
      .selected .copy_construct ∧
    select (mutex.enabled ⟨true, true, false, false, true⟩) .pack = .selected .in_place :=
  ⟨by decide, by decide, by decide,
   (C9_selection_among_enabled_constructors ⟨true, true, false, false, true⟩ .rvalue
      (mutex.enabled ⟨true, true, false, false, true⟩) (Or.inl rfl)).2.1 (by decide) rfl,
   by decide,
   (C9_selection_among_enabled_constructors ⟨true, true, false, false, true⟩ .pack
      (mutex.enabled ⟨true, true, false, false, true⟩) (Or.inl rfl)).2.2.2.1.mpr
      (Or.inl (by decide))⟩

end guards
